import Mathlib

/-!
Verification development for the displaced-mesh coupling layer
(DisplacedProblem.C of the MOOSE framework).

The embedding is a shallow one: each member function of DisplacedProblem
is translated into a Lean definition.  Operations whose interesting
content is the *sequence of calls they issue* (updateMesh, undisplaceMesh,
prepare, the reinit* family) are embedded as event traces: a `List Ev`
recording, in program order, every call made to the per-thread assembly
context, to the two displaced field systems, to the mesh collectives and
to the geometric-search / point-locator services.  Operations whose
interesting content is a *returned value* (the variable queries) are
embedded as functions on a small state model.  Node-coordinate updates
are embedded as functions on coordinate lists over the rationals.
-/

namespace Moose

/-- Physical-point payload for Dirac / physical-point reinitialization.
The source carries libMesh Point values; only their identity matters
here, so a rational number stands for a point. -/
abbrev Pt : Type := ℚ

/-- Which displaced field system a call targets: the displaced nonlinear
(primary) system or the displaced auxiliary system. -/
inductive SysId
  | nl
  | aux
deriving DecidableEq, Repr

/-- Operations invoked on a displaced FieldSystem (the _displaced_nl /
_displaced_aux members) by DisplacedProblem. -/
inductive SysOp
  | prepare
  | prepareFace
  | prepareNeighbor
  | reinitElem
  | reinitElemFace
  | reinitNode
  | reinitNodeFace
  | reinitNodes
  | reinitNodesNeighbor
  | reinitNeighborFace
  | reinitNeighbor
  | reinitScalars
deriving DecidableEq, Repr

/-- Operations invoked on the per-thread AssemblyContext
(_assembly[tid]) by DisplacedProblem. -/
inductive AsmOp
  | reinitElem
  | reinitSide
  | reinitNode
  | reinitElemAndNeighbor
  | reinitAtPhysical (pts : List Pt)
  | reinitNeighborAtPhysical (pts : List Pt)
  | prepare
  | prepareNeighbor
  | prepareJacobianBlock
  | prepareResidual
deriving DecidableEq, Repr

/-- One observable call issued by a DisplacedProblem member function, in
program order. `dispAllgather` is an operation no code path of
DisplacedProblem.C issues (replication of the displaced mesh); it exists
so that specification statements about such a replication can be written
down and compared with the actual traces. -/
inductive Ev
  | syncSolutions
  | refAllgather
  | refGatherToZero
  | dispAllgather
  | displaceVisitor (fullRange : Bool)
  | resetVisitor (fullRange : Bool)
  | geomSearchUpdate
  | updatePointLocator
  | eqReinit
  | asm (op : AsmOp)
  | sys (s : SysId) (op : SysOp)
deriving DecidableEq, Repr

/-- Embeds DisplacedProblem::reinitElem (lines 504-509): displaced
nonlinear reinitElem, then displaced auxiliary reinitElem. -/
def reinitElemTrace : List Ev :=
  [.sys .nl .reinitElem, .sys .aux .reinitElem]

/-- Embeds DisplacedProblem::reinitElemFace (lines 525-534):
assembly reinit(elem, side), then nl/aux reinitElemFace. -/
def reinitElemFaceTrace : List Ev :=
  [.asm .reinitSide, .sys .nl .reinitElemFace, .sys .aux .reinitElemFace]

/-- Embeds DisplacedProblem::reinitNode (lines 536-542). -/
def reinitNodeTrace : List Ev :=
  [.asm .reinitNode, .sys .nl .reinitNode, .sys .aux .reinitNode]

/-- Embeds DisplacedProblem::reinitNodeFace (lines 544-550). -/
def reinitNodeFaceTrace : List Ev :=
  [.asm .reinitNode, .sys .nl .reinitNodeFace, .sys .aux .reinitNodeFace]

/-- Embeds DisplacedProblem::reinitNodes (lines 552-557). -/
def reinitNodesTrace : List Ev :=
  [.sys .nl .reinitNodes, .sys .aux .reinitNodes]

/-- Embeds DisplacedProblem::reinitNodesNeighbor (lines 559-564). -/
def reinitNodesNeighborTrace : List Ev :=
  [.sys .nl .reinitNodesNeighbor, .sys .aux .reinitNodesNeighbor]

/-- Embeds DisplacedProblem::reinitNeighbor (lines 566-585): assembly
reinitElemAndNeighbor, nl/aux prepareNeighbor, assembly prepareNeighbor,
nl/aux reinitElemFace, nl/aux reinitNeighborFace. -/
def reinitNeighborTrace : List Ev :=
  [.asm .reinitElemAndNeighbor,
   .sys .nl .prepareNeighbor, .sys .aux .prepareNeighbor,
   .asm .prepareNeighbor,
   .sys .nl .reinitElemFace, .sys .aux .reinitElemFace,
   .sys .nl .reinitNeighborFace, .sys .aux .reinitNeighborFace]

/-- Embeds DisplacedProblem::reinitScalars (lines 626-631). -/
def reinitScalarsTrace : List Ev :=
  [.sys .nl .reinitScalars, .sys .aux .reinitScalars]

/-- Embeds DisplacedProblem::reinitElemPhys (lines 511-523): assembly
reinitAtPhysical at the given points, nl/aux prepare, assembly prepare,
then reinitElem. -/
def reinitElemPhysTrace (pts : List Pt) : List Ev :=
  [.asm (.reinitAtPhysical pts),
   .sys .nl .prepare, .sys .aux .prepare,
   .asm .prepare]
  ++ reinitElemTrace

/-- Embeds the side overload DisplacedProblem::reinitNeighborPhys
(lines 587-605): assembly reinitNeighborAtPhysical, nl/aux
prepareNeighbor, assembly prepareNeighbor, nl/aux reinitNeighborFace. -/
def reinitNeighborPhysFaceTrace (pts : List Pt) : List Ev :=
  [.asm (.reinitNeighborAtPhysical pts),
   .sys .nl .prepareNeighbor, .sys .aux .prepareNeighbor,
   .asm .prepareNeighbor,
   .sys .nl .reinitNeighborFace, .sys .aux .reinitNeighborFace]

/-- Embeds the element overload DisplacedProblem::reinitNeighborPhys
(lines 607-624): assembly reinitNeighborAtPhysical, nl/aux
prepareNeighbor, assembly prepareNeighbor, nl/aux reinitNeighbor. -/
def reinitNeighborPhysElemTrace (pts : List Pt) : List Ev :=
  [.asm (.reinitNeighborAtPhysical pts),
   .sys .nl .prepareNeighbor, .sys .aux .prepareNeighbor,
   .asm .prepareNeighbor,
   .sys .nl .reinitNeighbor, .sys .aux .reinitNeighbor]

/-- Embeds DisplacedProblem::reinitDirac (lines 482-502).  The argument
is the registered Dirac point list of the element
(_dirac_kernel_info.getPoints()[elem].first).  When it is nonempty the
assembly context is reinitialized at exactly those physical points, the
two displaced systems are prepared and reinitElem runs; in all cases
assembly prepare() runs; the returned Bool is n_points > 0. -/
def reinitDirac (points : List Pt) : Bool × List Ev :=
  let nPoints := points.length
  let t : List Ev :=
    (if 0 < nPoints then
      [.asm (.reinitAtPhysical points), .sys .nl .prepare, .sys .aux .prepare]
      ++ reinitElemTrace
    else [])
    ++ [.asm .prepare]
  (decide (0 < nPoints), t)

/-- Embeds DisplacedProblem::prepare(elem, tid) (lines 407-417).  The two
arguments are the values of _mproblem.hasJacobian() and
_mproblem.constJacobian(): prepareJacobianBlock runs unless both are
true; prepareResidual is unconditional. -/
def prepareTrace (hasJacobian constJacobian : Bool) : List Ev :=
  [.asm .reinitElem, .sys .nl .prepare, .sys .aux .prepare]
  ++ (if !hasJacobian || !constJacobian then [.asm .prepareJacobianBlock] else [])
  ++ [.asm .prepareResidual]

/-- Embeds the zero-argument DisplacedProblem::updateMesh (lines
158-194).  The four Bool arguments are the values of the displaced
mesh is_serial(), the reference mesh is_serial(), the displaced mesh
is_serial_on_zero() and the reference mesh is_serial_on_zero().
The function calls syncSolutions, allgathers the REFERENCE mesh when the
displaced one is serial and the reference is not, gathers the REFERENCE
mesh to rank zero when the displaced one is serial-on-zero and the
reference is not, then runs the displacement visitor over the full node
range (nodes_begin to nodes_end, all nodes, per the source comment about
displacing all nodes and not just semilocal ones), updates the geometric
search data and updates the Dirac point locator. -/
def updateMesh0 (dispSerial refSerial dispSerialOnZero refSerialOnZero : Bool) :
    List Ev :=
  [.syncSolutions]
  ++ (if dispSerial && !refSerial then [.refAllgather] else [])
  ++ (if dispSerialOnZero && !refSerialOnZero then [.refGatherToZero] else [])
  ++ [.displaceVisitor true, .geomSearchUpdate, .updatePointLocator]

/-- Embeds the two-argument DisplacedProblem::updateMesh(soln, aux_soln)
(lines 196-222): syncSolutions, then the displacement visitor over the
full node range, the geometric-search update and the point-locator
update.  This overload issues no mesh-serialization collective. -/
def updateMesh2Trace : List Ev :=
  [.syncSolutions, .displaceVisitor true, .geomSearchUpdate, .updatePointLocator]

/-- Embeds DisplacedProblem::undisplaceMesh (lines 869-897): it only
constructs the full node range (nodes_begin to nodes_end) and runs the
reset visitor over it; nothing else is called. -/
def undisplaceMeshTrace : List Ev :=
  [.resetVisitor true]

/-- The mesh-replication collectives occurring in a trace: allgather or
gather-to-zero of the reference mesh, or (hypothetical) replication of
the displaced mesh. -/
def isReplication : Ev → Bool
  | .refAllgather => true
  | .refGatherToZero => true
  | .dispAllgather => true
  | _ => false

/-- The sublist of mesh-replication collectives of a trace, in order. -/
def replicationEvents (t : List Ev) : List Ev :=
  t.filter isReplication

/-- Formalization of claim C1 at one concrete serialization state: a
mesh-replication collective occurs, and it replicates the displaced
mesh, exactly when the reference mesh is fully replicated and the
displaced one is not; and this holds of both overloads. -/
def claimC1At (dispSerial refSerial dispSerialOnZero refSerialOnZero : Bool) :
    Prop :=
  replicationEvents (updateMesh0 dispSerial refSerial dispSerialOnZero refSerialOnZero)
      = (if refSerial && !dispSerial then [Ev.dispAllgather] else [])
  ∧ replicationEvents updateMesh2Trace
      = (if refSerial && !dispSerial then [Ev.dispAllgather] else [])

/-- Extracts the payload of an assembly reinitAtPhysical event. -/
def physPointsOf : Ev → Option (List Pt)
  | .asm (.reinitAtPhysical pts) => some pts
  | _ => none

/-- Helper for the primary-before-auxiliary order property: scans a
trace keeping the FieldSystem operations already issued to the displaced
nonlinear system; every auxiliary-system operation must have been issued
to the nonlinear system earlier. -/
def auxAfterNl (seen : List SysOp) : List Ev → Bool
  | [] => true
  | .sys .nl op :: rest => auxAfterNl (op :: seen) rest
  | .sys .aux op :: rest => seen.contains op && auxAfterNl seen rest
  | _ :: rest => auxAfterNl seen rest

/-- Every call issued to the displaced auxiliary system is preceded by
the same call issued to the displaced nonlinear (primary) system. -/
def primaryBeforeAuxiliary (t : List Ev) : Bool :=
  auxAfterNl [] t

/-- A displaced FieldSystem, abstracted to what the variable queries
consult: the names of its field variables and of its scalar variables
(the SystemBase hasVariable / hasScalarVariable predicates; SystemBase
itself is an external collaborator of this layer). -/
structure FieldSystem where
  vars : List String
  scalarVars : List String
deriving DecidableEq, Repr

/-- hasVariable of one displaced system: membership among its field
variables. -/
def FieldSystem.hasVariable (s : FieldSystem) (v : String) : Bool :=
  s.vars.contains v

/-- hasScalarVariable of one displaced system: membership among its
scalar variables. -/
def FieldSystem.hasScalarVariable (s : FieldSystem) (v : String) : Bool :=
  s.scalarVars.contains v

/-- The reference problem (_mproblem), abstracted to the query results
DisplacedProblem reads from it.  FEProblemBase is an external
collaborator: its queries are modelled as opaque state fields. -/
structure RefProblem where
  transientFlag : Bool
  coordSystemOf : Nat → Nat
  convergedFlag : Bool
  hasVariableRef : String → Bool
  hasJacobianFlag : Bool
  constJacobianFlag : Bool

namespace RefProblem

/-- The reference problem answer to isTransient(). -/
def isTransient (p : RefProblem) : Bool :=
  p.transientFlag

/-- The reference problem answer to getCoordSystem(sid). -/
def getCoordSystem (p : RefProblem) (sid : Nat) : Nat :=
  p.coordSystemOf sid

/-- The reference problem answer to converged(). -/
def converged (p : RefProblem) : Bool :=
  p.convergedFlag

/-- The reference problem answer to hasVariable(v). -/
def hasVariable (p : RefProblem) (v : String) : Bool :=
  p.hasVariableRef v

end RefProblem

namespace DisplacedProblem

/-- Embeds DisplacedProblem::isTransient (lines 68-72): delegates to
_mproblem. -/
def isTransient (p : RefProblem) : Bool :=
  RefProblem.isTransient p

/-- Embeds DisplacedProblem::getCoordSystem (lines 74-78): delegates to
_mproblem. -/
def getCoordSystem (p : RefProblem) (sid : Nat) : Nat :=
  RefProblem.getCoordSystem p sid

/-- Embeds DisplacedProblem::converged (lines 847-851): delegates to
_mproblem. -/
def converged (p : RefProblem) : Bool :=
  RefProblem.converged p

/-- Embeds DisplacedProblem::hasVariable (lines 296-305): consults the
displaced nonlinear system, then the displaced auxiliary system. -/
def hasVariable (nl aux : FieldSystem) (v : String) : Bool :=
  if nl.hasVariable v then true
  else if aux.hasVariable v then true
  else false

/-- Embeds DisplacedProblem::getStandardVariable (lines 317-326): the
displaced nonlinear system is searched first, then the displaced
auxiliary system; a fatal mooseError becomes Except.error.  The ok value
records which system resolved the name. -/
def getStandardVariable (nl aux : FieldSystem) (v : String) :
    Except String (SysId × String) :=
  if nl.hasVariable v then Except.ok (SysId.nl, v)
  else if !aux.hasVariable v then Except.error ("No variable with name " ++ v)
  else Except.ok (SysId.aux, v)

/-- Embeds DisplacedProblem::getScalarVariable (lines 350-359). -/
def getScalarVariable (nl aux : FieldSystem) (v : String) :
    Except String (SysId × String) :=
  if nl.hasScalarVariable v then Except.ok (SysId.nl, v)
  else if aux.hasScalarVariable v then Except.ok (SysId.aux, v)
  else Except.error ("No variable with name " ++ v)

/-- Embeds DisplacedProblem::getSystem (lines 361-370). -/
def getSystem (nl aux : FieldSystem) (v : String) : Except String SysId :=
  if nl.hasVariable v then Except.ok SysId.nl
  else if aux.hasVariable v then Except.ok SysId.aux
  else Except.error ("Unable to find a system containing the variable " ++ v)

end DisplacedProblem

/-- Whether a lookup ended in the fatal mooseError path. -/
def isErr {α : Type} : Except String α → Bool
  | .error _ => true
  | .ok _ => false

/-- A concrete reference problem used to exhibit states on which the
displaced queries and the reference queries disagree. -/
def refPEx : RefProblem :=
  { transientFlag := true
    coordSystemOf := fun _ => 0
    convergedFlag := true
    hasVariableRef := fun _ => true
    hasJacobianFlag := false
    constJacobianFlag := false }

/-- Formalization of claim C2: the four queries each return exactly what
the reference problem returns for the same-named query, for every state. -/
def claimC2 : Prop :=
  ∀ (p : RefProblem) (nl aux : FieldSystem) (sid : Nat) (v : String),
    DisplacedProblem.isTransient p = RefProblem.isTransient p
    ∧ DisplacedProblem.getCoordSystem p sid = RefProblem.getCoordSystem p sid
    ∧ DisplacedProblem.converged p = RefProblem.converged p
    ∧ DisplacedProblem.hasVariable nl aux v = RefProblem.hasVariable p v

/-- Modelled from the spec: UpdateDisplacedMeshThread (its source file is
not under src/; only its invocation in updateMesh is).  Per node, the
displaced coordinate is the reference coordinate plus the displacement
offset evaluated at that node.  Coordinate lists are indexed by node id;
the 1-D case of the spec scenario is modelled, over the rationals. -/
def displaceCoords (ref d : List ℚ) : List ℚ :=
  List.zipWith (fun r off => r + off) ref d

/-- Modelled from the spec: ResetDisplacedMeshThread (its source file is
not under src/; only its invocation in undisplaceMesh is).  Per node,
the reference coordinate is written directly into the displaced mesh,
discarding the displaced value rather than subtracting the offset. -/
def undisplaceCoords (ref disp : List ℚ) : List ℚ :=
  List.zipWith (fun r _ => r) ref disp

/-- The displaced-problem state affected (or not) by undisplaceMesh:
displaced node coordinates, the two solution vectors, and generation
counters standing for the geometric-search data, the Dirac point
locator and the equation-systems container. -/
structure DPState where
  dispCoords : List ℚ
  nlSolution : List ℚ
  auxSolution : List ℚ
  geomSearchGen : Nat
  pointLocatorGen : Nat
  eqGen : Nat
deriving DecidableEq, Repr

/-- Embeds DisplacedProblem::undisplaceMesh (lines 869-897) as a state
transformer: the reset visitor rewrites the displaced node coordinates
from the reference coordinates over the full node range; no other field
is touched. -/
def undisplaceMeshState (refCoords : List ℚ) (s : DPState) : DPState :=
  { s with dispCoords := undisplaceCoords refCoords s.dispCoords }

/-- A displaced nonlinear system with one field variable and one scalar
variable, used to instantiate hypotheses of the lookup theorems. -/
def nlEx : FieldSystem :=
  { vars := ["disp_x"], scalarVars := ["lm"] }

/-- A displaced auxiliary system with one field variable and one scalar
variable, used to instantiate hypotheses of the lookup theorems. -/
def auxEx : FieldSystem :=
  { vars := ["aux_v"], scalarVars := ["pp"] }

/-- C1 counterexample: at the serialization state where the displaced
mesh is fully replicated and the reference mesh is not (and likewise
serial-on-zero), the claim demands that no mesh-replication collective
be issued (since the reference mesh is not replicated), yet the
zero-argument updateMesh issues an allgather and a gather-to-zero of
the reference mesh. -/
theorem updateMesh_replication_claim_false : ¬ claimC1At true false true false := by
  simp only [claimC1At]
  decide

/-- C1 (amended): the zero-argument updateMesh allgathers the reference
mesh exactly when the displaced mesh is serial and the reference is not,
then gathers the reference mesh to rank zero exactly when the displaced
mesh is serial-on-zero and the reference is not; the displaced mesh is
never replicated, and the two-argument overload issues no
mesh-replication collective at all. -/
theorem updateMesh_replication :
    ∀ dispSerial refSerial dispSerialOnZero refSerialOnZero : Bool,
      replicationEvents
          (updateMesh0 dispSerial refSerial dispSerialOnZero refSerialOnZero)
        = (if dispSerial && !refSerial then [Ev.refAllgather] else [])
          ++ (if dispSerialOnZero && !refSerialOnZero then [Ev.refGatherToZero] else [])
      ∧ replicationEvents updateMesh2Trace = [] := by
  decide

/-- C2 counterexample: with displaced systems that hold no variable and
a reference problem whose hasVariable answers true, the displaced
hasVariable does not return what the reference query returns — it
resolves against the displaced systems, not by delegation. -/
theorem hasVariable_not_delegated :
    DisplacedProblem.hasVariable { vars := [], scalarVars := [] }
        { vars := [], scalarVars := [] } "u"
      ≠ RefProblem.hasVariable refPEx "u" := by
  decide

/-- C2 (amended): isTransient, getCoordSystem and converged delegate
unconditionally to the reference problem; hasVariable instead returns
true exactly when the displaced nonlinear or the displaced auxiliary
system holds the variable, without consulting the reference problem. -/
theorem metadata_query_delegation :
    ∀ (p : RefProblem) (nl aux : FieldSystem) (sid : Nat) (v : String),
      DisplacedProblem.isTransient p = RefProblem.isTransient p
      ∧ DisplacedProblem.getCoordSystem p sid = RefProblem.getCoordSystem p sid
      ∧ DisplacedProblem.converged p = RefProblem.converged p
      ∧ DisplacedProblem.hasVariable nl aux v
          = (nl.hasVariable v || aux.hasVariable v) := by
  intro p nl aux sid v
  refine ⟨rfl, rfl, rfl, ?_⟩
  unfold DisplacedProblem.hasVariable
  cases h1 : nl.hasVariable v <;> cases h2 : aux.hasVariable v <;> simp

/-- C3: getStandardVariable, getScalarVariable and getSystem resolve
against the displaced nonlinear system first, then the displaced
auxiliary system, and end in the fatal variable-not-found error exactly
when neither displaced system holds the variable (of the queried kind). -/
theorem variable_lookup_resolution :
    ∀ (nl aux : FieldSystem) (v : String),
      isErr (DisplacedProblem.getStandardVariable nl aux v)
          = (!nl.hasVariable v && !aux.hasVariable v)
      ∧ (nl.hasVariable v = true →
          DisplacedProblem.getStandardVariable nl aux v = Except.ok (SysId.nl, v))
      ∧ (nl.hasVariable v = false → aux.hasVariable v = true →
          DisplacedProblem.getStandardVariable nl aux v = Except.ok (SysId.aux, v))
      ∧ isErr (DisplacedProblem.getScalarVariable nl aux v)
          = (!nl.hasScalarVariable v && !aux.hasScalarVariable v)
      ∧ (nl.hasScalarVariable v = true →
          DisplacedProblem.getScalarVariable nl aux v = Except.ok (SysId.nl, v))
      ∧ (nl.hasScalarVariable v = false → aux.hasScalarVariable v = true →
          DisplacedProblem.getScalarVariable nl aux v = Except.ok (SysId.aux, v))
      ∧ isErr (DisplacedProblem.getSystem nl aux v)
          = (!nl.hasVariable v && !aux.hasVariable v)
      ∧ (nl.hasVariable v = true →
          DisplacedProblem.getSystem nl aux v = Except.ok SysId.nl)
      ∧ (nl.hasVariable v = false → aux.hasVariable v = true →
          DisplacedProblem.getSystem nl aux v = Except.ok SysId.aux) := by
  intro nl aux v
  cases h1 : nl.hasVariable v <;> cases h2 : aux.hasVariable v <;>
    cases h3 : nl.hasScalarVariable v <;> cases h4 : aux.hasScalarVariable v <;>
    simp [DisplacedProblem.getStandardVariable, DisplacedProblem.getScalarVariable,
      DisplacedProblem.getSystem, isErr, h1, h2, h3, h4]

/-- C3 witness: on concrete displaced systems, a nonlinear-held name
resolves to the nonlinear system, an auxiliary-held name resolves to
the auxiliary system, and an unknown name ends in the error path. -/
theorem variable_lookup_resolution_witness :
    DisplacedProblem.getStandardVariable nlEx auxEx "disp_x"
        = Except.ok (SysId.nl, "disp_x")
    ∧ DisplacedProblem.getSystem nlEx auxEx "aux_v" = Except.ok SysId.aux
    ∧ DisplacedProblem.getScalarVariable nlEx auxEx "pp"
        = Except.ok (SysId.aux, "pp") :=
  ⟨(variable_lookup_resolution nlEx auxEx "disp_x").2.1 (by decide),
   (variable_lookup_resolution nlEx auxEx "aux_v").2.2.2.2.2.2.2.2
      (by decide) (by decide),
   (variable_lookup_resolution nlEx auxEx "pp").2.2.2.2.2.1
      (by decide) (by decide)⟩

/-- C4: both updateMesh overloads end, in order, with the displacement
visitor over the full node range, the geometric-search update and the
Dirac point-locator update, whatever the serialization state. -/
theorem updateMesh_displacement_sequence :
    ∀ dispSerial refSerial dispSerialOnZero refSerialOnZero : Bool,
      (updateMesh0 dispSerial refSerial dispSerialOnZero refSerialOnZero).drop
          ((updateMesh0 dispSerial refSerial dispSerialOnZero refSerialOnZero).length - 3)
        = [Ev.displaceVisitor true, Ev.geomSearchUpdate, Ev.updatePointLocator]
      ∧ updateMesh2Trace.drop (updateMesh2Trace.length - 3)
        = [Ev.displaceVisitor true, Ev.geomSearchUpdate, Ev.updatePointLocator] := by
  decide

/-- C5: every reinitialization forwarding operation issues each displaced
nonlinear (primary) FieldSystem call before the matching displaced
auxiliary FieldSystem call. -/
theorem reinit_forwarding_primary_before_auxiliary :
    ∀ pts : List Pt,
      primaryBeforeAuxiliary reinitElemTrace = true
      ∧ primaryBeforeAuxiliary reinitElemFaceTrace = true
      ∧ primaryBeforeAuxiliary reinitNodeTrace = true
      ∧ primaryBeforeAuxiliary reinitNodeFaceTrace = true
      ∧ primaryBeforeAuxiliary reinitNodesTrace = true
      ∧ primaryBeforeAuxiliary reinitNodesNeighborTrace = true
      ∧ primaryBeforeAuxiliary reinitNeighborTrace = true
      ∧ primaryBeforeAuxiliary reinitScalarsTrace = true
      ∧ primaryBeforeAuxiliary (reinitElemPhysTrace pts) = true
      ∧ primaryBeforeAuxiliary (reinitNeighborPhysFaceTrace pts) = true
      ∧ primaryBeforeAuxiliary (reinitNeighborPhysElemTrace pts) = true := by
  intro pts
  exact ⟨rfl, rfl, rfl, rfl, rfl, rfl, rfl, rfl, rfl, rfl, rfl⟩

/-- C6: reinitDirac returns true exactly when the element has registered
Dirac points, and the assembly context is reinitialized at physical
points exactly once with exactly the registered points when there are
any, and never when there are none. -/
theorem reinitDirac_gating :
    ∀ pts : List Pt,
      (reinitDirac pts).fst = !pts.isEmpty
      ∧ (reinitDirac pts).snd.filterMap physPointsOf
          = (if pts.isEmpty then [] else [pts]) := by
  intro pts
  cases pts with
  | nil => exact ⟨rfl, rfl⟩
  | cons p ps =>
      refine ⟨?_, ?_⟩ <;> simp [reinitDirac, reinitElemTrace, physPointsOf]

/-- C7: undisplacing after displacing restores the reference coordinates
exactly, because the reset visitor writes the reference coordinate
directly; and on the 1-D three-node scenario, displacing coordinates
0, 1, 2 by 0, 1/10, 2/10 gives 0, 11/10, 22/10 and undisplacing
restores 0, 1, 2. -/
theorem displacement_round_trip :
    (∀ ref d : List ℚ, d.length = ref.length →
      undisplaceCoords ref (displaceCoords ref d) = ref)
    ∧ displaceCoords [0, 1, 2] [0, 1/10, 2/10] = [0, 11/10, 22/10]
    ∧ undisplaceCoords [0, 1, 2] (displaceCoords [0, 1, 2] [0, 1/10, 2/10])
        = [0, 1, 2] := by
  refine ⟨?_, by norm_num [displaceCoords], by norm_num [displaceCoords, undisplaceCoords]⟩
  intro ref d h
  induction ref generalizing d with
  | nil => simp [displaceCoords, undisplaceCoords]
  | cons r rs ih =>
      cases d with
      | nil => simp at h
      | cons x xs =>
          simp only [List.length_cons, Nat.succ.injEq] at h
          simp [displaceCoords, undisplaceCoords] at ih ⊢
          exact ih xs h

/-- C7 witness: the round-trip theorem applied to the concrete 1-D
scenario. -/
theorem displacement_round_trip_witness :
    undisplaceCoords [0, 1, 2] (displaceCoords [0, 1, 2] [0, 1/10, 2/10])
      = [0, 1, 2] :=
  displacement_round_trip.1 [0, 1, 2] [0, 1/10, 2/10] (by decide)

/-- C8: prepare(elem, tid) skips the assembly prepareJacobianBlock call
exactly when the reference problem already has a Jacobian and declares
it constant, and always issues prepareResidual. -/
theorem prepare_jacobian_block_gating :
    ∀ hasJacobian constJacobian : Bool,
      (Ev.asm AsmOp.prepareJacobianBlock ∉ prepareTrace hasJacobian constJacobian
        ↔ (hasJacobian = true ∧ constJacobian = true))
      ∧ Ev.asm AsmOp.prepareResidual ∈ prepareTrace hasJacobian constJacobian := by
  decide

/-- C9: with zero registered Dirac points, reinitDirac returns false but
still issues the assembly context prepare() call — its whole trace is
that single call. -/
theorem reinitDirac_prepares_without_points :
    (reinitDirac ([] : List Pt)).fst = false
    ∧ Ev.asm AsmOp.prepare ∈ (reinitDirac ([] : List Pt)).snd
    ∧ (reinitDirac ([] : List Pt)).snd = [Ev.asm AsmOp.prepare] := by
  decide

/-- C10: undisplaceMesh rewrites only the displaced node coordinates
(full node range, via the reset visitor); the solution vectors, the
geometric-search data, the Dirac point locator and the equation-systems
container are untouched, and its trace contains no geometric-search
update, no point-locator update, no equation-systems reinit and no
solution copy. -/
theorem undisplaceMesh_frame :
    ∀ (refCoords : List ℚ) (s : DPState),
      (undisplaceMeshState refCoords s).nlSolution = s.nlSolution
      ∧ (undisplaceMeshState refCoords s).auxSolution = s.auxSolution
      ∧ (undisplaceMeshState refCoords s).geomSearchGen = s.geomSearchGen
      ∧ (undisplaceMeshState refCoords s).pointLocatorGen = s.pointLocatorGen
      ∧ (undisplaceMeshState refCoords s).eqGen = s.eqGen
      ∧ (undisplaceMeshState refCoords s).dispCoords
          = undisplaceCoords refCoords s.dispCoords
      ∧ Ev.resetVisitor true ∈ undisplaceMeshTrace
      ∧ Ev.geomSearchUpdate ∉ undisplaceMeshTrace
      ∧ Ev.updatePointLocator ∉ undisplaceMeshTrace
      ∧ Ev.eqReinit ∉ undisplaceMeshTrace
      ∧ Ev.syncSolutions ∉ undisplaceMeshTrace := by
  intro refCoords s
  refine ⟨rfl, rfl, rfl, rfl, rfl, rfl, by decide, by decide, by decide,
    by decide, by decide⟩

end Moose
